import Mathlib

/-
Verification of the calculation core (registry, state model, domain
calculations, projection engine) of the financial-planning repository.

The Python source is shallowly embedded: `Decimal` values become `ℚ`
(all arithmetic on exact decimal literals is exact in both), Python
`dict`s become insertion-ordered association lists (`List (String × α)`
with update-in-place-or-append semantics, matching `d[k] = v`), mutation
of `CalculationState` becomes explicit state passing (each handler
returns the result together with the updated state), and exceptions
caught inside handlers become explicit failure branches.

Object identity of the mutable containers that matter for snapshot
isolation (`position_context`, `intermediates`) is modelled by a region
tag (`ℕ`): every `model_copy(deep=True)` and every fresh construction
allocates previously unused tags from a counter threaded through the
projection engine, so two containers alias iff they carry the same tag.
-/

namespace CalcCore

/-- Python `dict` lookup `d.get(k)` on an insertion-ordered dict. -/
def getKey (d : List (String × α)) (k : String) : Option α :=
  match d with
  | [] => none
  | (k', v) :: rest => if k' = k then some v else getKey rest k

/-- Python `d.get(k, dflt)`. -/
def getKeyD (d : List (String × α)) (k : String) (dflt : α) : α :=
  (getKey d k).getD dflt

/-- Python `d[k] = v`: replaces the value in place if the key exists
(keeping its position), otherwise appends the new binding at the end. -/
def setKey (d : List (String × α)) (k : String) (v : α) : List (String × α) :=
  match d with
  | [] => [(k, v)]
  | (k', v') :: rest => if k' = k then (k, v) :: rest else (k', v') :: setKey rest k v

/-- Python `k in d`. -/
def hasKey (d : List (String × α)) (k : String) : Bool :=
  (getKey d k).isSome

@[simp] theorem getKey_setKey_self (d : List (String × α)) (k : String) (v : α) :
    getKey (setKey d k v) k = some v := by
  induction d with
  | nil => simp [setKey, getKey]
  | cons hd tl ih =>
    obtain ⟨k', v'⟩ := hd
    by_cases h : k' = k <;> simp [setKey, getKey, h, ih]

theorem getKey_setKey_ne (d : List (String × α)) {k k' : String} (v : α) (h : k ≠ k') :
    getKey (setKey d k v) k' = getKey d k' := by
  induction d with
  | nil => simp [setKey, getKey, h]
  | cons hd tl ih =>
    obtain ⟨k'', v''⟩ := hd
    by_cases h2 : k'' = k
    · subst h2
      simp [setKey, getKey, h]
    · simp [setKey, getKey, h2, ih]

theorem setKey_setKey_same (d : List (String × α)) (k : String) (v w : α) :
    setKey (setKey d k v) k w = setKey d k w := by
  induction d with
  | nil => simp [setKey]
  | cons hd tl ih =>
    obtain ⟨k', v'⟩ := hd
    by_cases h : k' = k <;> simp [setKey, h, ih]

/-- Nested update `d[e][k] = v` after `if e not in d: d[e] = \x7b\x7d`:
the inner bucket is fetched (or created empty) and updated in place. -/
def setNested (d : List (String × List (String × ℚ))) (e k : String) (v : ℚ) :
    List (String × List (String × ℚ)) :=
  setKey d e (setKey (getKeyD d e []) k v)

/-- Value stored at `d[e][k]`, if any. -/
def getNested (d : List (String × List (String × ℚ))) (e k : String) : Option ℚ :=
  match getKey d e with
  | none => none
  | some bucket => getKey bucket k

/-- A value stored in a `TraceEntry.metadata` map (`Dict[str, Any]` in the
source holds Decimals, ints, bools and strings). -/
inductive MetaVal where
  | q (x : ℚ)
  | i (n : ℤ)
  | b (x : Bool)
  | s (x : String)
  deriving DecidableEq

/-- Embedding of `TraceEntry` from `shared/schemas/orchestration.py`: immutable audit
record appended to `intermediates.trace_log`. -/
structure TraceEntry where
  calc_id : String
  entity_id : Option String
  field : String
  explanation : String
  metadata : List (String × MetaVal)
  deriving DecidableEq

/-- Modelled from the spec: the `EntityCashflow` variant consumed by the
domain handlers. The only `EntityCashflow` schema under `src/`
(`calculation_engine/schemas/cashflow.py`) lacks the `payg_withheld`,
`super_employer_sg`, `super_salary_sacrifice` and
`super_personal_deductible` fields that `tax_personal.py` and
`superannuation.py` read; the fields here are the ones those handlers
use, with the schema default of 0. (`x or Decimal("0")` in the source is
the identity on a plain Decimal field, since the only falsy Decimal is 0.)
-/
structure EntityCashflow where
  entity_id : String
  salary_wages_gross : ℚ := 0
  payg_withheld : ℚ := 0
  super_employer_sg : ℚ := 0
  super_salary_sacrifice : ℚ := 0
  super_personal_deductible : ℚ := 0
  deriving DecidableEq

/-- Embedding of `CashflowContext.flows`: dict keyed by entity id, insertion order kept. -/
structure CashflowContext where
  flows : List (String × EntityCashflow)
  deriving DecidableEq

/-- The fields of `GlobalContext` (`shared/schemas/calculation.py`) read by
the embedded code paths (the remaining fields — jurisdiction, currency,
caps, precision settings — are never read by the registry, the handlers or
the projection engine). -/
structure GlobalContext where
  financial_year : ℤ
  inflation_rate : ℚ
  wage_growth_rate : ℚ
  property_growth_rate : ℚ
  equity_return_rate : ℚ
  fixed_income_return_rate : ℚ
  deriving DecidableEq

/-- Embedding of `FinancialPositionContext`: its contents are never read by the embedded
code (handlers and projection only pass it around and deep-copy it), so the
payload is a type parameter; `region` is the aliasing tag. -/
structure PositionCtx (π : Type) where
  region : ℕ
  data : π
  deriving DecidableEq

/-- Embedding of `CalculatedIntermediariesContext` from `shared/schemas/calculation.py`:
fields `tax_results`, `super_results`, `property_results`,
`plan_level_results`, `trace_log` (there is no `cgt_results` field — the
CGT handlers' attempt to create one raises and is caught). `tax_results`
holds per-entity buckets; `super_results`/`property_results`/
`plan_level_results` hold flat key-value pairs, which is how the SUP/PFL
handlers write them. `region` is the aliasing tag. -/
structure Intermediates where
  region : ℕ
  tax_results : List (String × List (String × ℚ)) := []
  super_results : List (String × ℚ) := []
  property_results : List (String × ℚ) := []
  plan_level_results : List (String × ℚ) := []
  trace_log : List TraceEntry := []
  deriving DecidableEq

/-- Fresh `CalculatedIntermediariesContext()` allocated at region `r`. -/
def emptyIntermediates (r : ℕ) : Intermediates :=
  { region := r }

/-- Embedding of `CalculationState` (`shared/schemas/calculation.py`). `entity_context`
is never read by any embedded code path, so its payload is a type
parameter, as is the position payload. -/
structure CalculationState (ε π : Type) where
  global_context : GlobalContext
  entity_context : ε
  position_context : PositionCtx π
  cashflow_context : CashflowContext
  intermediates : Intermediates
  scenario_id : String
  assumption_set_id : String
  deriving DecidableEq

/-- Embedding of `CalculationResult`: the return contract of every domain handler. -/
structure CalculationResult where
  success : Bool
  value : Option ℚ
  trace_entries : List TraceEntry
  error_message : Option String := none
  deriving DecidableEq

/-- One tax bracket dict as loaded by the rule provider
(`\x7bmin, max, rate\x7d`; `max` may be `None` for the top bracket). -/
structure Bracket where
  min : ℚ
  max : Option ℚ
  rate : ℚ
  deriving DecidableEq

/-- LITO parameter set returned by `rule_loader.get_lito_parameters()`. -/
structure LitoParams where
  max_offset : ℚ
  income_limit : ℚ
  phase_out_start : ℚ
  phase_out_rate : ℚ
  deriving DecidableEq

/-- The rule-provider lookups (`rule_loader` getters), treated as an
external collaborator supplying pure constants (spec §6). -/
structure Rules where
  tax_brackets : List Bracket
  medicare_levy_rate : ℚ
  medicare_levy_thresholds : List (String × ℚ)
  lito : LitoParams
  concessional_cap : ℚ
  contributions_tax_rate : ℚ
  division_293_threshold : ℚ
  division_293_rate : ℚ
  cgt_discount_rate : ℚ
  marginal_tax_rate : ℚ
  deriving DecidableEq

variable {ε π : Type}

/-- Effective upper bound of a bracket: the source computes
`Decimal(str(bracket.get('max', inf))) if bracket.get('max') else Decimal('inf')`,
so both a missing/`None` `max` and a (falsy) `max` of 0 mean unbounded. -/
def effMax (b : Bracket) : Option ℚ :=
  match b.max with
  | none => none
  | some m => if m = 0 then none else some m

/-- Embedding of `min(remaining_income, bracket_max - bracket_min)`; with an unbounded
bracket the minimum is `remaining_income`. -/
def bracketTaxable (b : Bracket) (remaining : ℚ) : ℚ :=
  match effMax b with
  | none => remaining
  | some m => min remaining (m - b.min)

/-- The bracket loop of `_calculate_progressive_tax`: at each iteration the
loop breaks if `remaining_income <= 0`, otherwise accumulates
`taxable_in_bracket * rate` and reduces the remaining income. -/
def taxLoop : ℚ → List Bracket → ℚ
  | _, [] => 0
  | remaining, b :: rest =>
    if remaining ≤ 0 then 0
    else bracketTaxable b remaining * b.rate + taxLoop (remaining - bracketTaxable b remaining) rest

/-- Sort order used by `sorted(tax_brackets, key=lambda x: x.get('min', 0))`. -/
def brLe (a b : Bracket) : Prop := a.min ≤ b.min

instance : DecidableRel brLe := fun a b => inferInstanceAs (Decidable (a.min ≤ b.min))

instance : IsTotal Bracket brLe := ⟨fun a b => le_total a.min b.min⟩

instance : IsTrans Bracket brLe := ⟨fun _ _ _ h1 h2 => le_trans h1 h2⟩

/-- Embedding of `_calculate_progressive_tax` from `tax_personal.py`. -/
def calculate_progressive_tax (taxable_income : ℚ) (tax_brackets : List Bracket) : ℚ :=
  if tax_brackets = [] then 0
  else taxLoop taxable_income (List.insertionSort brLe tax_brackets)

/-- Embedding of `_calculate_lito` from `tax_personal.py`. In Python a
`phase_out_rate` of 0 raises `ZeroDivisionError` in the second branch
condition (caught by the calling handler); here `q / 0 = 0`, so
theorems about the phase-out branches assume `0 < phase_out_rate`, and
the calling handler `run_CAL_PIT_004` models the raising case explicitly. -/
def calculate_lito (p : LitoParams) (taxable_income : ℚ) : ℚ :=
  if taxable_income ≤ p.income_limit then p.max_offset
  else if taxable_income ≤ p.phase_out_start + p.max_offset / p.phase_out_rate then
    max 0 (p.max_offset - (taxable_income - p.phase_out_start) * p.phase_out_rate)
  else 0

/-- The shape of every domain handler: `(state, entity_id, year_index) ->
CalculationResult`, with the state mutation made explicit, and the rule
provider passed as a parameter (the source reads the module-level
`rule_loader`). -/
abbrev Handler (ε π : Type) :=
  Rules → CalculationState ε π → String → ℤ → CalculationResult × CalculationState ε π

/-- Embedding of `run_CAL_PIT_001` (PAYG tax). Interpolated numbers in explanation
strings are rendered with `toString`; no claim depends on their exact
formatting. -/
def run_CAL_PIT_001 : Handler ε π := fun rules st entity_id _year_index =>
  match getKey st.cashflow_context.flows entity_id with
  | none =>
    ({ success := false, value := none, trace_entries := [],
       error_message := some ("Entity " ++ entity_id ++ " not found in cashflow context") }, st)
  | some cashflow =>
    let assessable_income := cashflow.salary_wages_gross
    let deductions : ℚ := 0
    let taxable_income := assessable_income - deductions
    let tax_brackets := rules.tax_brackets
    let tax_payable := calculate_progressive_tax taxable_income tax_brackets
    let trace_entry : TraceEntry :=
      { calc_id := "CAL-PIT-001", entity_id := some entity_id, field := "tax_payable",
        explanation := "PAYG tax calculated for resident on taxable income of " ++ toString taxable_income,
        metadata := [("assessable_income", .q assessable_income), ("deductions", .q deductions),
                     ("taxable_income", .q taxable_income), ("tax_brackets_applied", .i tax_brackets.length)] }
    let inter := st.intermediates
    let inter := { inter with
      tax_results := setNested inter.tax_results entity_id "payg_tax" tax_payable,
      trace_log := inter.trace_log ++ [trace_entry] }
    ({ success := true, value := some tax_payable, trace_entries := [trace_entry] },
     { st with intermediates := inter })

/-- Embedding of `run_CAL_PIT_002` (Medicare levy). The prerequisite guard is
`entity_id not in tax_results or "taxable_income" not in tax_results[entity_id]`. -/
def run_CAL_PIT_002 : Handler ε π := fun rules st entity_id _year_index =>
  match getNested st.intermediates.tax_results entity_id "taxable_income" with
  | none =>
    ({ success := false, value := none, trace_entries := [],
       error_message := some ("Taxable income not available for entity " ++ entity_id ++
                              ". Run CAL-PIT-001 first.") }, st)
  | some taxable_income =>
    let medicare_rate := rules.medicare_levy_rate
    let threshold := getKeyD rules.medicare_levy_thresholds "single" 0
    let medicare_levy := if taxable_income > threshold then (taxable_income - threshold) * medicare_rate else 0
    let trace_entry : TraceEntry :=
      { calc_id := "CAL-PIT-002", entity_id := some entity_id, field := "medicare_levy",
        explanation := "Medicare levy calculated at " ++ toString medicare_rate ++
                       " on income above threshold of " ++ toString threshold,
        metadata := [("taxable_income", .q taxable_income), ("threshold", .q threshold),
                     ("rate", .q medicare_rate), ("levy_payable", .q medicare_levy)] }
    let inter := st.intermediates
    let inter := { inter with
      tax_results := setNested inter.tax_results entity_id "medicare_levy" medicare_levy,
      trace_log := inter.trace_log ++ [trace_entry] }
    ({ success := true, value := some medicare_levy, trace_entries := [trace_entry] },
     { st with intermediates := inter })

/-- Embedding of `run_CAL_PIT_004` (tax offsets / LITO). The explicit failure branch
models the `ZeroDivisionError` raised inside `_calculate_lito` when the
phase-out rate is 0 and the elif condition is evaluated; it is caught by
the handler before any state is written. -/
def run_CAL_PIT_004 : Handler ε π := fun rules st entity_id _year_index =>
  match getNested st.intermediates.tax_results entity_id "taxable_income" with
  | none =>
    ({ success := false, value := none, trace_entries := [],
       error_message := some ("Taxable income not available for entity " ++ entity_id ++
                              ". Run CAL-PIT-001 first.") }, st)
  | some taxable_income =>
    if rules.lito.phase_out_rate = 0 ∧ rules.lito.income_limit < taxable_income then
      ({ success := false, value := none, trace_entries := [],
         error_message := some "Error in CAL-PIT-004: division by zero" }, st)
    else
      let lito_amount := calculate_lito rules.lito taxable_income
      let total_offsets := lito_amount
      let trace_entry : TraceEntry :=
        { calc_id := "CAL-PIT-004", entity_id := some entity_id, field := "tax_offsets",
          explanation := "Tax offsets aggregated including LITO of " ++ toString lito_amount,
          metadata := [("lito_amount", .q lito_amount), ("total_offsets", .q total_offsets),
                       ("taxable_income", .q taxable_income)] }
      let inter := st.intermediates
      let inter := { inter with
        tax_results := setNested inter.tax_results entity_id "tax_offsets" total_offsets,
        trace_log := inter.trace_log ++ [trace_entry] }
      ({ success := true, value := some total_offsets, trace_entries := [trace_entry] },
       { st with intermediates := inter })

/-- Embedding of `run_CAL_PIT_005` (net tax payable). All inputs default to 0 when
absent; the final write `tax_results[entity_id][...] = ...` raises
`KeyError` when the per-entity bucket does not exist (the earlier read
used `.get(entity_id, \x7b\x7d)`), which the handler catches and converts to a
failure before anything is written. -/
def run_CAL_PIT_005 : Handler ε π := fun _rules st entity_id _year_index =>
  let tax_results := getKeyD st.intermediates.tax_results entity_id []
  let payg_tax := getKeyD tax_results "payg_tax" 0
  let medicare_levy := getKeyD tax_results "medicare_levy" 0
  let tax_offsets := getKeyD tax_results "tax_offsets" 0
  let payg_withheld :=
    match getKey st.cashflow_context.flows entity_id with
    | some cashflow => cashflow.payg_withheld
    | none => 0
  let gross_tax := payg_tax + medicare_levy
  let net_tax_before_withheld := gross_tax - tax_offsets
  let net_tax_payable := net_tax_before_withheld - payg_withheld
  let is_refund := net_tax_payable < 0
  match getKey st.intermediates.tax_results entity_id with
  | none =>
    ({ success := false, value := none, trace_entries := [],
       error_message := some ("Error in CAL-PIT-005: KeyError " ++ entity_id) }, st)
  | some _ =>
    let trace_entry : TraceEntry :=
      { calc_id := "CAL-PIT-005", entity_id := some entity_id, field := "net_tax_payable",
        explanation := "Net tax position calculated: " ++
                       (if is_refund then "refund" else "payable") ++ " of " ++ toString |net_tax_payable|,
        metadata := [("gross_tax", .q gross_tax), ("tax_offsets", .q tax_offsets),
                     ("payg_withheld", .q payg_withheld),
                     ("net_tax_before_withheld", .q net_tax_before_withheld),
                     ("final_position", .q net_tax_payable), ("is_refund", .b is_refund)] }
    let inter := st.intermediates
    let inter := { inter with
      tax_results := setNested inter.tax_results entity_id "net_tax_payable" net_tax_payable,
      trace_log := inter.trace_log ++ [trace_entry] }
    ({ success := true, value := some net_tax_payable, trace_entries := [trace_entry] },
     { st with intermediates := inter })

/-- Embedding of `run_CAL_SUP_002` (total concessional contributions). The source's
membership test `"super_results" not in state.intermediates` iterates a
pydantic model, which yields `(name, value)` pairs, so the test is always
true and `super_results` is reset to an empty dict on every call; the
total is then stored under the flat key `"total_concessional"` (not in a
per-entity bucket). -/
def run_CAL_SUP_002 : Handler ε π := fun _rules st entity_id _year_index =>
  match getKey st.cashflow_context.flows entity_id with
  | none =>
    ({ success := false, value := none, trace_entries := [],
       error_message := some ("Cashflow not found for entity " ++ entity_id) }, st)
  | some cashflow =>
    let employer_sg := cashflow.super_employer_sg
    let salary_sacrifice := cashflow.super_salary_sacrifice
    let personal_deductible := cashflow.super_personal_deductible
    let total_concessional := employer_sg + salary_sacrifice + personal_deductible
    let trace_entry : TraceEntry :=
      { calc_id := "CAL-SUP-002", entity_id := some entity_id,
        field := "total_concessional_contributions",
        explanation := "Total concessional contributions calculated: " ++ toString total_concessional,
        metadata := [("employer_sg", .q employer_sg), ("salary_sacrifice", .q salary_sacrifice),
                     ("personal_deductible", .q personal_deductible), ("total", .q total_concessional)] }
    let inter := st.intermediates
    let inter := { inter with
      super_results := setKey ([] : List (String × ℚ)) "total_concessional" total_concessional,
      trace_log := inter.trace_log ++ [trace_entry] }
    ({ success := true, value := some total_concessional, trace_entries := [trace_entry] },
     { st with intermediates := inter })

/-- Embedding of `run_CAL_SUP_003` (concessional cap utilisation). Missing
`total_concessional` defaults to 0; three flat keys are written. -/
def run_CAL_SUP_003 : Handler ε π := fun rules st entity_id _year_index =>
  let total_concessional := getKeyD st.intermediates.super_results "total_concessional" 0
  let concessional_cap := rules.concessional_cap
  let utilised := total_concessional
  let remaining := max 0 (concessional_cap - utilised)
  let excess := max 0 (utilised - concessional_cap)
  let trace_entry : TraceEntry :=
    { calc_id := "CAL-SUP-003", entity_id := some entity_id, field := "concessional_cap_utilisation",
      explanation := "Concessional cap utilisation: " ++ toString utilised ++ " of " ++
                     toString concessional_cap ++ " cap",
      metadata := [("cap_limit", .q concessional_cap), ("utilised", .q utilised),
                   ("remaining", .q remaining), ("excess", .q excess)] }
  let inter := st.intermediates
  let inter := { inter with
    super_results :=
      setKey (setKey (setKey inter.super_results "concessional_cap_utilised" utilised)
        "concessional_cap_remaining" remaining) "concessional_cap_excess" excess,
    trace_log := inter.trace_log ++ [trace_entry] }
  ({ success := true, value := some utilised, trace_entries := [trace_entry] },
   { st with intermediates := inter })

/-- Embedding of `run_CAL_SUP_007` (contributions tax inside super). -/
def run_CAL_SUP_007 : Handler ε π := fun rules st entity_id _year_index =>
  let total_concessional := getKeyD st.intermediates.super_results "total_concessional" 0
  let contributions_tax_rate := rules.contributions_tax_rate
  let contributions_tax := total_concessional * contributions_tax_rate
  let trace_entry : TraceEntry :=
    { calc_id := "CAL-SUP-007", entity_id := some entity_id, field := "contributions_tax",
      explanation := "15% contributions tax calculated on concessional contributions",
      metadata := [("concessional_contributions", .q total_concessional),
                   ("tax_rate", .q contributions_tax_rate), ("tax_amount", .q contributions_tax)] }
  let inter := st.intermediates
  let inter := { inter with
    super_results := setKey inter.super_results "contributions_tax" contributions_tax,
    trace_log := inter.trace_log ++ [trace_entry] }
  ({ success := true, value := some contributions_tax, trace_entries := [trace_entry] },
   { st with intermediates := inter })

/-- Embedding of `run_CAL_SUP_008` (Division 293 additional tax). A missing
`taxable_income` for the entity defaults to 0 (`.get(entity_id, \x7b\x7d)` then
`.get("taxable_income", Decimal("0"))`) — the handler does not fail. -/
def run_CAL_SUP_008 : Handler ε π := fun rules st entity_id _year_index =>
  let tax_results := getKeyD st.intermediates.tax_results entity_id []
  let taxable_income := getKeyD tax_results "taxable_income" 0
  let ati := taxable_income
  let div293_threshold := rules.division_293_threshold
  let additional_rate := rules.division_293_rate
  let additional_tax :=
    if ati > div293_threshold then
      getKeyD st.intermediates.super_results "total_concessional" 0 * additional_rate
    else 0
  let trace_entry : TraceEntry :=
    { calc_id := "CAL-SUP-008", entity_id := some entity_id, field := "division_293_tax",
      explanation := "Division 293 tax calculated for ATI of " ++ toString ati,
      metadata := [("adjusted_taxable_income", .q ati), ("threshold", .q div293_threshold),
                   ("additional_rate", .q additional_rate), ("additional_tax", .q additional_tax)] }
  let inter := st.intermediates
  let inter := { inter with
    super_results := setKey inter.super_results "division_293_tax" additional_tax,
    trace_log := inter.trace_log ++ [trace_entry] }
  ({ success := true, value := some additional_tax, trace_entries := [trace_entry] },
   { st with intermediates := inter })

/-- Embedding of `run_CAL_SUP_009` (net contribution added to balance). -/
def run_CAL_SUP_009 : Handler ε π := fun _rules st entity_id _year_index =>
  let total_concessional := getKeyD st.intermediates.super_results "total_concessional" 0
  let contributions_tax := getKeyD st.intermediates.super_results "contributions_tax" 0
  let division_293_tax := getKeyD st.intermediates.super_results "division_293_tax" 0
  let total_taxes := contributions_tax + division_293_tax
  let net_contribution := total_concessional - total_taxes
  let trace_entry : TraceEntry :=
    { calc_id := "CAL-SUP-009", entity_id := some entity_id, field := "net_super_contribution",
      explanation := "Net super contribution calculated after taxes: " ++ toString net_contribution,
      metadata := [("gross_contributions", .q total_concessional),
                   ("contributions_tax", .q contributions_tax),
                   ("division_293_tax", .q division_293_tax),
                   ("total_taxes", .q total_taxes), ("net_contribution", .q net_contribution)] }
  let inter := st.intermediates
  let inter := { inter with
    super_results := setKey inter.super_results "net_contribution" net_contribution,
    trace_log := inter.trace_log ++ [trace_entry] }
  ({ success := true, value := some net_contribution, trace_entries := [trace_entry] },
   { st with intermediates := inter })

/-- Embedding of `run_CAL_CGT_001` (capital gain on disposal). The assignment
`state.intermediates.cgt_results = \x7b\x7d` raises, because
`CalculatedIntermediariesContext` has no `cgt_results` field; the
exception is caught, so the handler always fails and never mutates the
state. -/
def run_CAL_CGT_001 : Handler ε π := fun _rules st _entity_id _year_index =>
  ({ success := false, value := none, trace_entries := [],
     error_message := some "Error in CAL-CGT-001: object has no field cgt_results" }, st)

/-- Embedding of `run_CAL_CGT_002` (CGT discount). The read
`state.intermediates.cgt_results.get(...)` raises for the same reason as
in CAL-CGT-001; the handler always fails and never mutates the state. -/
def run_CAL_CGT_002 : Handler ε π := fun _rules st _entity_id _year_index =>
  ({ success := false, value := none, trace_entries := [],
     error_message := some "Error in CAL-CGT-002: object has no field cgt_results" }, st)

/-- Embedding of `run_CAL_PFL_104` (negative gearing tax benefit). Interest and rental
income are placeholder zeros in the source, so the deductible loss is 0
and no benefit accrues; `property_results` is reset (same pydantic
membership-test quirk as CAL-SUP-002) and the flat key written. -/
def run_CAL_PFL_104 : Handler ε π := fun rules st entity_id _year_index =>
  let property_interest : ℚ := 0
  let rental_income : ℚ := 0
  let deductible_loss := property_interest - rental_income
  let marginal_rate := rules.marginal_tax_rate
  let tax_benefit := if deductible_loss > 0 then deductible_loss * marginal_rate else 0
  let trace_entry : TraceEntry :=
    { calc_id := "CAL-PFL-104", entity_id := some entity_id, field := "negative_gearing_benefit",
      explanation := "Negative gearing tax benefit calculated: " ++ toString tax_benefit,
      metadata := [("property_interest", .q property_interest), ("rental_income", .q rental_income),
                   ("deductible_loss", .q deductible_loss), ("marginal_rate", .q marginal_rate),
                   ("tax_benefit", .q tax_benefit)] }
  let inter := st.intermediates
  let inter := { inter with
    property_results := setKey ([] : List (String × ℚ)) "negative_gearing_benefit" tax_benefit,
    trace_log := inter.trace_log ++ [trace_entry] }
  ({ success := true, value := some tax_benefit, trace_entries := [trace_entry] },
   { st with intermediates := inter })

variable {H : Type}

/-- The payload of the `KeyError` raised by `get_calculation`: the
requested id together with the list of registered ids interpolated into
the message ("Available calculations: ..."). -/
structure UnknownCalc where
  requested : String
  available : List String
  deriving DecidableEq

/-- Embedding of `get_calculation` from `src/engines/calculation/registry.py`: dict
lookup, raising (modelled as `Except.error`) with the list of available
ids when absent. -/
def get_calculation (reg : List (String × H)) (cal_id : String) : Except UnknownCalc H :=
  match getKey reg cal_id with
  | none => .error { requested := cal_id, available := reg.map Prod.fst }
  | some f => .ok f

/-- Embedding of `register_calculation`: raises (`some` error message) on a duplicate
id, leaving the dict untouched; otherwise appends the new binding (dict
insertion of a fresh key). -/
def register_calculation (reg : List (String × H)) (cal_id : String) (func : H) :
    Option String × List (String × H) :=
  if hasKey reg cal_id then
    (some ("Calculation " ++ cal_id ++ " is already registered"), reg)
  else
    (none, reg ++ [(cal_id, func)])

/-- Embedding of `get_registered_calculations`: `CALCULATION_REGISTRY.copy()` — a
shallow defensive copy, value-identical to the dict itself. -/
def get_registered_calculations (reg : List (String × H)) : List (String × H) := reg

/-- Embedding of `CALCULATION_REGISTRY`: the module-level dispatch table, built once. -/
def CALCULATION_REGISTRY (ε π : Type) : List (String × Handler ε π) :=
  [("CAL-PIT-001", run_CAL_PIT_001),
   ("CAL-PIT-002", run_CAL_PIT_002),
   ("CAL-PIT-004", run_CAL_PIT_004),
   ("CAL-PIT-005", run_CAL_PIT_005),
   ("CAL-CGT-001", run_CAL_CGT_001),
   ("CAL-CGT-002", run_CAL_CGT_002),
   ("CAL-SUP-002", run_CAL_SUP_002),
   ("CAL-SUP-003", run_CAL_SUP_003),
   ("CAL-SUP-007", run_CAL_SUP_007),
   ("CAL-SUP-008", run_CAL_SUP_008),
   ("CAL-SUP-009", run_CAL_SUP_009),
   ("CAL-PFL-104", run_CAL_PFL_104)]

/-- Embedding of `run_calculation`: lookup then invoke. An unknown id raises in the
source; the projection engine only ever passes registered ids, so the
fallback branch (which returns a failure without touching the state) is
unreachable from `run_projection`. -/
def run_calculation (rules : Rules) (cal_id : String) (st : CalculationState ε π)
    (entity_id : String) (year_index : ℤ) : CalculationResult × CalculationState ε π :=
  match getKey (CALCULATION_REGISTRY ε π) cal_id with
  | some f => f rules st entity_id year_index
  | none =>
    ({ success := false, value := none, trace_entries := [],
       error_message := some ("Calculation " ++ cal_id ++ " not found in registry") }, st)

/-- Embedding of `YearSnapshot` from `shared/schemas/calculation.py`. -/
structure YearSnapshot (π : Type) where
  year_index : ℕ
  financial_year : ℤ
  position_snapshot : PositionCtx π
  intermediaries : Intermediates
  deriving DecidableEq

/-- Embedding of `ProjectionOutput`. -/
structure ProjectionOutput (ε π : Type) where
  base_state : CalculationState ε π
  timeline : List (YearSnapshot π)
  deriving DecidableEq

/-- Embedding of `model_copy(deep=True)`: every mutable container of the copy is a
fresh object, modelled by tagging the copied position context and the
copied intermediates with previously unused regions from the counter. -/
def deepCopyState (st : CalculationState ε π) (ctr : ℕ) : CalculationState ε π × ℕ :=
  ({ st with
      position_context := { st.position_context with region := ctr },
      intermediates := { st.intermediates with region := ctr + 1 } },
   ctr + 2)

/-- Embedding of `Decimal.quantize(Decimal('0.01'))` with the default
`ROUND_HALF_EVEN` rounding: round to cent precision, ties to even. -/
def roundCentHalfEven (q : ℚ) : ℚ :=
  let x := q * 100
  let n : ℤ := ⌊x⌋
  let frac := x - n
  (if frac < 1 / 2 then (n : ℚ)
   else if 1 / 2 < frac then ((n + 1 : ℤ) : ℚ)
   else if Even n then (n : ℚ) else ((n + 1 : ℤ) : ℚ)) / 100

/-- Embedding of `_apply_inflation_to_cashflows`: inflates `salary_wages_gross` of
every flow, rounding to cents; no-op when the rate is 0. -/
def apply_inflation_to_cashflows (st : CalculationState ε π) (inflation_rate : ℚ) :
    CalculationState ε π :=
  if inflation_rate = 0 then st
  else
    { st with cashflow_context :=
      { flows := st.cashflow_context.flows.map (fun p =>
          (p.1, { p.2 with salary_wages_gross :=
                    roundCentHalfEven (p.2.salary_wages_gross * (1 + inflation_rate)) })) } }

/-- Embedding of `_apply_wage_growth_to_cashflows`: same shape, applied after (and so
on top of) inflation. -/
def apply_wage_growth_to_cashflows (st : CalculationState ε π) (wage_growth_rate : ℚ) :
    CalculationState ε π :=
  if wage_growth_rate = 0 then st
  else
    { st with cashflow_context :=
      { flows := st.cashflow_context.flows.map (fun p =>
          (p.1, { p.2 with salary_wages_gross :=
                    roundCentHalfEven (p.2.salary_wages_gross * (1 + wage_growth_rate)) })) } }

/-- Embedding of `_advance_to_next_year`: deep copy, increment `financial_year`, apply
inflation then wage growth (property growth and investment returns are
no-ops in the source), append the `PROJECTION_ADVANCE` trace entry. -/
def advance_to_next_year (st : CalculationState ε π) (year_index : ℕ) (ctr : ℕ) :
    CalculationState ε π × ℕ :=
  let copied := deepCopyState st ctr
  let next_st := copied.1
  let next_st := { next_st with global_context :=
    { next_st.global_context with financial_year := next_st.global_context.financial_year + 1 } }
  let inflation_rate := st.global_context.inflation_rate
  let next_st := apply_inflation_to_cashflows next_st inflation_rate
  let wage_growth_rate := st.global_context.wage_growth_rate
  let next_st := apply_wage_growth_to_cashflows next_st wage_growth_rate
  let trace_entry : TraceEntry :=
    { calc_id := "PROJECTION_ADVANCE", entity_id := none, field := "year_advancement",
      explanation := "Advanced to year " ++ toString (year_index + 1) ++ " with growth rates applied",
      metadata := [("from_year", .i st.global_context.financial_year),
                   ("to_year", .i next_st.global_context.financial_year),
                   ("inflation_rate", .q inflation_rate),
                   ("wage_growth_rate", .q wage_growth_rate),
                   ("property_growth_rate", .q st.global_context.property_growth_rate),
                   ("equity_return_rate", .q st.global_context.equity_return_rate)] }
  let next_st := { next_st with intermediates :=
    { next_st.intermediates with trace_log := next_st.intermediates.trace_log ++ [trace_entry] } }
  (next_st, copied.2)

/-- Embedding of `_calculate_entity_tax_metrics`: the fixed tax chain; results are
discarded, only the state mutations matter. -/
def calculate_entity_tax_metrics (rules : Rules) (st : CalculationState ε π)
    (entity_id : String) (year_index : ℤ) : CalculationState ε π :=
  let st := (run_calculation rules "CAL-PIT-001" st entity_id year_index).2
  let st := (run_calculation rules "CAL-PIT-002" st entity_id year_index).2
  let st := (run_calculation rules "CAL-PIT-004" st entity_id year_index).2
  (run_calculation rules "CAL-PIT-005" st entity_id year_index).2

/-- Embedding of `_calculate_entity_super_metrics`: the fixed super chain. -/
def calculate_entity_super_metrics (rules : Rules) (st : CalculationState ε π)
    (entity_id : String) (year_index : ℤ) : CalculationState ε π :=
  let st := (run_calculation rules "CAL-SUP-002" st entity_id year_index).2
  let st := (run_calculation rules "CAL-SUP-003" st entity_id year_index).2
  let st := (run_calculation rules "CAL-SUP-007" st entity_id year_index).2
  let st := (run_calculation rules "CAL-SUP-008" st entity_id year_index).2
  (run_calculation rules "CAL-SUP-009" st entity_id year_index).2

/-- Embedding of `_calculate_year_snapshot`: reset `intermediates` to a freshly
allocated empty context, run the tax chain then the super chain for each
entity in `cashflow_context.flows`, and assemble the snapshot, sharing
(aliasing) the live state's position context and intermediates. -/
def calculate_year_snapshot (rules : Rules) (st : CalculationState ε π)
    (year_index : ℕ) (ctr : ℕ) : YearSnapshot π × CalculationState ε π × ℕ :=
  let st := { st with intermediates := emptyIntermediates ctr }
  let keys := st.cashflow_context.flows.map Prod.fst
  let st := keys.foldl (fun s e => calculate_entity_tax_metrics rules s e year_index) st
  let st := keys.foldl (fun s e => calculate_entity_super_metrics rules s e year_index) st
  ({ year_index := year_index,
     financial_year := st.global_context.financial_year + year_index,
     position_snapshot := st.position_context,
     intermediaries := st.intermediates },
   st, ctr + 1)

/-- The year loop of `project_scenario`: iterate `year_index` from `k`,
producing `remaining + 1` snapshots, advancing the state between all but
the last. -/
def projGo (rules : Rules) :
    ℕ → CalculationState ε π → ℕ → ℕ → List (YearSnapshot π) × ℕ
  | 0, st, k, ctr =>
    let r := calculate_year_snapshot rules st k ctr
    ([r.1], r.2.2)
  | remaining + 1, st, k, ctr =>
    let r := calculate_year_snapshot rules st k ctr
    let a := advance_to_next_year r.2.1 k r.2.2
    let rest := projGo rules remaining a.1 (k + 1) a.2
    (r.1 :: rest.1, rest.2)

/-- Embedding of `ProjectionEngine.project_scenario` (exposed in the source through the
convenience wrapper `run_projection`): deep-copy the base state, run the
year loop for `projection_years + 1` years, and return the output holding
the caller's `base_state` and the timeline. -/
def run_projection (rules : Rules) (base_state : CalculationState ε π)
    (projection_years : ℕ) (ctr : ℕ) : ProjectionOutput ε π × ℕ :=
  let c := deepCopyState base_state ctr
  let r := projGo rules projection_years c.1 0 c.2
  ({ base_state := base_state, timeline := r.1 }, r.2)

/-! Concrete fixtures used by witnesses and counterexamples. -/

/-- The bracket list from the spec's worked example. -/
def exampleBrackets : List Bracket :=
  [{ min := 0, max := some 18200, rate := 0 },
   { min := 18200, max := some 45000, rate := 19 / 100 },
   { min := 45000, max := none, rate := 325 / 1000 }]

/-- The LITO parameter set from the spec's worked example. -/
def exampleLito : LitoParams :=
  { max_offset := 700, income_limit := 37500, phase_out_start := 37500, phase_out_rate := 5 / 100 }

/-- A concrete rule set for evaluating handlers. -/
def testRules : Rules :=
  { tax_brackets := exampleBrackets
    medicare_levy_rate := 2 / 100
    medicare_levy_thresholds := [("single", 24276)]
    lito := exampleLito
    concessional_cap := 27500
    contributions_tax_rate := 15 / 100
    division_293_threshold := 250000
    division_293_rate := 15 / 100
    cgt_discount_rate := 1 / 2
    marginal_tax_rate := 325 / 1000 }

/-- A concrete global context (all growth rates zero). -/
def testGlobal : GlobalContext :=
  { financial_year := 2024, inflation_rate := 0, wage_growth_rate := 0,
    property_growth_rate := 0, equity_return_rate := 0, fixed_income_return_rate := 0 }

/-- A state with a single entity `A` earning 50000. -/
def testStateA : CalculationState Unit Unit :=
  { global_context := testGlobal
    entity_context := ()
    position_context := { region := 0, data := () }
    cashflow_context := { flows := [("A", { entity_id := "A", salary_wages_gross := 50000 })] }
    intermediates := emptyIntermediates 1
    scenario_id := "scn-1"
    assumption_set_id := "as-1" }

/-- A state with two entities with different super contributions. -/
def testStateAB : CalculationState Unit Unit :=
  { global_context := testGlobal
    entity_context := ()
    position_context := { region := 0, data := () }
    cashflow_context := { flows :=
      [("A", { entity_id := "A", super_employer_sg := 100 }),
       ("B", { entity_id := "B", super_employer_sg := 200 })] }
    intermediates := emptyIntermediates 1
    scenario_id := "scn-2"
    assumption_set_id := "as-1" }

/-- A state with no cashflow entities (the projection's year loop still
runs; the per-entity chains fold over nothing). -/
def testStateEmpty : CalculationState Unit Unit :=
  { global_context := testGlobal
    entity_context := ()
    position_context := { region := 0, data := () }
    cashflow_context := { flows := [] }
    intermediates := emptyIntermediates 1
    scenario_id := "scn-3"
    assumption_set_id := "as-1" }

/-! ## C5 — progressive personal income tax -/

theorem insertionSort_ne_nil {l : List Bracket} (h : l ≠ []) :
    List.insertionSort brLe l ≠ [] := by
  intro hcon
  have hl := List.length_insertionSort brLe l
  rw [hcon] at hl
  exact h (List.length_eq_zero.mp hl.symm)

/-- C5: the progressive tax computation processes brackets sorted
ascending by `min`; in each step the amount taxed is
`min(remaining, max - min)` (the whole remaining income for an unbounded
bracket) at that bracket's rate; an empty bracket list or non-positive
income yields zero tax; and on the spec's example brackets an income of
50000 is taxed exactly 6717. -/
theorem C5_progressive_tax :
    (∀ income : ℚ, calculate_progressive_tax income [] = 0) ∧
    (∀ (income : ℚ) (bs : List Bracket), income ≤ 0 → calculate_progressive_tax income bs = 0) ∧
    (∀ (income : ℚ) (bs : List Bracket), bs ≠ [] →
      calculate_progressive_tax income bs = taxLoop income (List.insertionSort brLe bs) ∧
      List.Sorted brLe (List.insertionSort brLe bs)) ∧
    (∀ (remaining : ℚ) (b : Bracket) (rest : List Bracket), 0 < remaining →
      taxLoop remaining (b :: rest) =
        bracketTaxable b remaining * b.rate +
          taxLoop (remaining - bracketTaxable b remaining) rest) ∧
    (∀ (b : Bracket) (remaining m : ℚ), b.max = some m → m ≠ 0 →
      bracketTaxable b remaining = min remaining (m - b.min)) ∧
    (∀ (b : Bracket) (remaining : ℚ), b.max = none → bracketTaxable b remaining = remaining) ∧
    calculate_progressive_tax 50000 exampleBrackets = 6717 := by
  have hexample : calculate_progressive_tax 50000 exampleBrackets = 6717 := by
    have h1 : exampleBrackets ≠ [] := by simp [exampleBrackets]
    rw [calculate_progressive_tax, if_neg h1]
    norm_num [exampleBrackets, List.insertionSort,
      List.orderedInsert, brLe, taxLoop, bracketTaxable, effMax, min_def]
  refine ⟨fun income => by simp [calculate_progressive_tax], ?_, ?_, ?_, ?_, ?_, ?_⟩
  · intro income bs h
    unfold calculate_progressive_tax
    split
    · rfl
    · rename_i hne
      obtain ⟨b, rest, hcons⟩ := List.exists_cons_of_ne_nil (insertionSort_ne_nil hne)
      rw [hcons]
      unfold taxLoop
      simp [h]
  · intro income bs h
    refine ⟨?_, List.sorted_insertionSort brLe bs⟩
    unfold calculate_progressive_tax
    simp [h]
  · intro remaining b rest h
    rw [taxLoop]
    simp [not_le.mpr h]
  · intro b remaining m hmax hm
    simp [bracketTaxable, effMax, hmax, hm]
  · intro b remaining hmax
    simp [bracketTaxable, effMax, hmax]
  · exact hexample

/-- Witness for C5: the theorem applied at concrete inputs. -/
theorem C5_progressive_tax_witness :
    calculate_progressive_tax (-3) exampleBrackets = 0 ∧
    calculate_progressive_tax 50000 exampleBrackets = 6717 :=
  ⟨C5_progressive_tax.2.1 (-3) exampleBrackets (by norm_num),
   C5_progressive_tax.2.2.2.2.2.2⟩

/-! ## C6 — LITO offset -/

/-- C6: LITO is piecewise in taxable income: full `max_offset` up to
`income_limit`; in the phase-out range the offset is `max_offset` reduced
by `(income - phase_out_start) * phase_out_rate`; the result is never
negative (for a nonnegative `max_offset`); above the full phase-out point
it is exactly zero; and on the spec's example parameters incomes 37500
and 45500 yield 700 and 300. (A positive `phase_out_rate` is assumed
where the division `max_offset / phase_out_rate` is evaluated — a zero
rate raises `ZeroDivisionError` in the source.) -/
theorem C6_lito (p : LitoParams) (income : ℚ) :
    (income ≤ p.income_limit → calculate_lito p income = p.max_offset) ∧
    (0 < p.phase_out_rate → 0 ≤ p.max_offset → p.income_limit < income →
      p.phase_out_start ≤ income →
      income ≤ p.phase_out_start + p.max_offset / p.phase_out_rate →
      calculate_lito p income = p.max_offset - (income - p.phase_out_start) * p.phase_out_rate) ∧
    (0 ≤ p.max_offset → 0 ≤ calculate_lito p income) ∧
    (0 < p.phase_out_rate → 0 ≤ p.max_offset → p.income_limit ≤ p.phase_out_start →
      p.phase_out_start + p.max_offset / p.phase_out_rate < income →
      calculate_lito p income = 0) ∧
    (calculate_lito exampleLito 37500 = 700 ∧ calculate_lito exampleLito 45500 = 300) := by
  refine ⟨?_, ?_, ?_, ?_, ?_, ?_⟩
  · intro h
    simp [calculate_lito, h]
  · intro hrate hmax hlim hstart hrange
    have hred : (income - p.phase_out_start) * p.phase_out_rate ≤ p.max_offset := by
      have h1 : income - p.phase_out_start ≤ p.max_offset / p.phase_out_rate := by linarith
      calc (income - p.phase_out_start) * p.phase_out_rate
          ≤ (p.max_offset / p.phase_out_rate) * p.phase_out_rate :=
            mul_le_mul_of_nonneg_right h1 (le_of_lt hrate)
        _ = p.max_offset := div_mul_cancel₀ _ (ne_of_gt hrate)
    rw [calculate_lito, if_neg (not_le.mpr hlim), if_pos hrange]
    exact max_eq_right (by linarith)
  · intro hmax
    unfold calculate_lito
    split
    · exact hmax
    · split
      · exact le_max_left 0 _
      · exact le_refl 0
  · intro hrate hmax hlim habove
    have hdiv : 0 ≤ p.max_offset / p.phase_out_rate := div_nonneg hmax (le_of_lt hrate)
    rw [calculate_lito, if_neg (not_le.mpr (by linarith)), if_neg (not_le.mpr habove)]
  · norm_num [calculate_lito, exampleLito]
  · norm_num [calculate_lito, exampleLito, max_def]

/-- Witness for C6: the theorem applied at the spec's example parameters,
discharging the branch hypotheses at concrete inputs. -/
theorem C6_lito_witness :
    calculate_lito exampleLito 37500 = exampleLito.max_offset ∧
    calculate_lito exampleLito 45500 =
      exampleLito.max_offset -
        (45500 - exampleLito.phase_out_start) * exampleLito.phase_out_rate ∧
    calculate_lito exampleLito 60000 = 0 :=
  ⟨(C6_lito exampleLito 37500).1 (by norm_num [exampleLito]),
   (C6_lito exampleLito 45500).2.1 (by norm_num [exampleLito]) (by norm_num [exampleLito])
     (by norm_num [exampleLito]) (by norm_num [exampleLito]) (by norm_num [exampleLito]),
   (C6_lito exampleLito 60000).2.2.2.1 (by norm_num [exampleLito]) (by norm_num [exampleLito])
     (by norm_num [exampleLito]) (by norm_num [exampleLito])⟩

/-! ## C8 — registry round-trip -/

theorem getKey_append_fresh {H : Type} (reg : List (String × H)) (k : String) (f : H)
    (h : getKey reg k = none) : getKey (reg ++ [(k, f)]) k = some f := by
  induction reg with
  | nil => simp [getKey]
  | cons hd tl ih =>
    obtain ⟨k', v'⟩ := hd
    by_cases hk : k' = k
    · simp [getKey, hk] at h
    · simp only [List.cons_append, getKey, hk, if_false] at h ⊢
      exact ih h

/-- C8: looking up a registered id (including one just added by
`register_calculation`) returns the registered handler; looking up an
absent id fails with an error carrying the full list of registered ids
(nonempty whenever the registry is, and the process registry
`CALCULATION_REGISTRY` is nonempty); registering a duplicate id fails and
leaves the registry unchanged. -/
theorem C8_registry {H : Type} (reg : List (String × H)) (cal_id s : String) (f : H) :
    (∀ g, getKey reg cal_id = some g → get_calculation reg cal_id = Except.ok g) ∧
    (hasKey reg cal_id = false →
      (register_calculation reg cal_id f).1 = none ∧
      get_calculation (register_calculation reg cal_id f).2 cal_id = Except.ok f) ∧
    (getKey reg s = none →
      get_calculation reg s = Except.error { requested := s, available := reg.map Prod.fst } ∧
      (reg ≠ [] → reg.map Prod.fst ≠ [])) ∧
    (hasKey reg cal_id = true →
      (register_calculation reg cal_id f).1.isSome = true ∧
      (register_calculation reg cal_id f).2 = reg) ∧
    CALCULATION_REGISTRY ε π ≠ [] := by
  refine ⟨?_, ?_, ?_, ?_, by simp [CALCULATION_REGISTRY]⟩
  · intro g hg
    simp [get_calculation, hg]
  · intro habs
    have hnone : getKey reg cal_id = none := by
      simpa [hasKey, Option.isSome_iff_exists] using habs
    refine ⟨by simp [register_calculation, habs], ?_⟩
    simp [register_calculation, habs, get_calculation, getKey_append_fresh reg cal_id f hnone]
  · intro hnone
    refine ⟨by simp [get_calculation, hnone], ?_⟩
    intro hne h
    exact hne (List.map_eq_nil_iff.mp h)
  · intro hpres
    constructor <;> simp [register_calculation, hpres]

/-- Witness for C8: the theorem applied to a concrete one-entry registry
and to a fresh registration. -/
theorem C8_registry_witness :
    get_calculation [("CAL-X-001", (42 : ℕ))] "CAL-X-001" = Except.ok 42 ∧
    get_calculation [("CAL-X-001", (42 : ℕ))] "CAL-NOPE" =
      Except.error { requested := "CAL-NOPE", available := ["CAL-X-001"] } ∧
    (register_calculation [("CAL-X-001", (42 : ℕ))] "CAL-X-001" 7).2 = [("CAL-X-001", 42)] ∧
    get_calculation (register_calculation [("CAL-X-001", (42 : ℕ))] "CAL-Y-002" 7).2 "CAL-Y-002" =
      Except.ok 7 :=
  ⟨(C8_registry (ε := Unit) (π := Unit) [("CAL-X-001", 42)] "CAL-X-001" "CAL-NOPE" 7).1 42
     (by decide),
   ((C8_registry (ε := Unit) (π := Unit) [("CAL-X-001", 42)] "CAL-X-001" "CAL-NOPE" 7).2.2.1
     (by decide)).1,
   ((C8_registry (ε := Unit) (π := Unit) [("CAL-X-001", 42)] "CAL-X-001" "CAL-NOPE" 7).2.2.2.1
     (by decide)).2,
   ((C8_registry (ε := Unit) (π := Unit) [("CAL-X-001", 42)] "CAL-Y-002" "CAL-NOPE" 7).2.1
     (by decide)).2⟩

/-! ## Association-list lemmas shared by the handler proofs -/

theorem setKey_eq_self {α : Type} (d : List (String × α)) (k : String) (v : α)
    (h : getKey d k = some v) : setKey d k v = d := by
  induction d with
  | nil => simp [getKey] at h
  | cons hd tl ih =>
    obtain ⟨k', v'⟩ := hd
    by_cases hk : k' = k
    · subst hk
      simp [getKey] at h
      simp [setKey, h]
    · simp only [getKey, hk, if_false] at h
      simp [setKey, hk, ih h]

theorem getKey_of_bucket (d : List (String × List (String × ℚ))) (e k : String) :
    getKey ((getKey d e).getD []) k = getNested d e k := by
  unfold getNested
  cases h : getKey d e <;> simp [getKey]

theorem getKeyD_bucket (d : List (String × List (String × ℚ))) (e k : String) (dflt : ℚ) :
    getKeyD (getKeyD d e []) k dflt = (getNested d e k).getD dflt := by
  unfold getKeyD
  rw [getKey_of_bucket]

theorem getNested_setNested_self (d : List (String × List (String × ℚ))) (e k : String) (v : ℚ) :
    getNested (setNested d e k v) e k = some v := by
  rw [← getKey_of_bucket]
  unfold setNested getKeyD
  rw [getKey_setKey_self]
  simp

theorem getNested_setNested_ne_key (d : List (String × List (String × ℚ)))
    (e e' k k' : String) (v : ℚ) (hk : k ≠ k') :
    getNested (setNested d e k v) e' k' = getNested d e' k' := by
  rw [← getKey_of_bucket, ← getKey_of_bucket]
  by_cases he : e = e'
  · subst he
    unfold setNested getKeyD
    rw [getKey_setKey_self]
    simp only [Option.getD_some]
    exact getKey_setKey_ne _ v hk
  · unfold setNested getKeyD
    rw [getKey_setKey_ne _ _ he]

theorem getNested_setNested_ne_ent (d : List (String × List (String × ℚ)))
    (e e' k k' : String) (v : ℚ) (he : e ≠ e') :
    getNested (setNested d e k v) e' k' = getNested d e' k' := by
  rw [← getKey_of_bucket, ← getKey_of_bucket]
  unfold setNested getKeyD
  rw [getKey_setKey_ne _ _ he]

theorem setNested_idem (d : List (String × List (String × ℚ))) (e k : String) (v : ℚ) :
    setNested (setNested d e k v) e k v = setNested d e k v := by
  unfold setNested getKeyD
  rw [getKey_setKey_self]
  simp only [Option.getD_some]
  rw [setKey_setKey_same, setKey_setKey_same]

/-! ## C2 — MissingPrerequisite is not recoverable by running CAL-PIT-001 -/

/-- C2: `run_CAL_PIT_001` never stores `taxable_income` in the entity's
tax bucket (it writes only `payg_tax`), so a subsequent `run_CAL_PIT_002`
fails with the missing-prerequisite message even when CAL-PIT-001 has
just succeeded for the same entity — shown generally (the first
conjunct) and at the concrete failing input (entity `A`, salary 50000). -/
theorem C2_pit002_always_missing_prerequisite :
    (∀ (rules : Rules) (st : CalculationState ε π) (e : String) (y : ℤ),
      getNested ((run_CAL_PIT_001 rules st e y).2).intermediates.tax_results e "taxable_income"
        = getNested st.intermediates.tax_results e "taxable_income") ∧
    (run_CAL_PIT_001 testRules testStateA "A" 0).1.success = true ∧
    (run_CAL_PIT_002 testRules (run_CAL_PIT_001 testRules testStateA "A" 0).2 "A" 0).1.success
      = false ∧
    (run_CAL_PIT_002 testRules (run_CAL_PIT_001 testRules testStateA "A" 0).2 "A" 0).1.error_message
      = some "Taxable income not available for entity A. Run CAL-PIT-001 first." := by
  refine ⟨?_, by rfl, by rfl, by rfl⟩
  intro rules st e y
  unfold run_CAL_PIT_001
  cases h : getKey st.cashflow_context.flows e
  · rfl
  · simp only
    exact getNested_setNested_ne_key _ e e "payg_tax" "taxable_income" _ (by decide)

/-! ## C4 — Division 293 with absent taxable income -/

/-- A state where entity `A` has no tax results yet but a recorded
concessional total of 1000 — CAL-SUP-008's prerequisite is absent. -/
def testStateSup : CalculationState Unit Unit :=
  { global_context := testGlobal
    entity_context := ()
    position_context := { region := 0, data := () }
    cashflow_context := { flows := [("A", { entity_id := "A" })] }
    intermediates := { region := 1, super_results := [("total_concessional", 1000)] }
    scenario_id := "scn-4"
    assumption_set_id := "as-1" }

/-- Counterexample to C4: with `taxable_income` absent from entity `A`'s
tax results (and a concessional total of 1000 on record), `run_CAL_SUP_008`
succeeds and returns a computed tax of 0 — the claim says the call must
not succeed with a computed tax. -/
theorem C4_counterexample :
    getNested testStateSup.intermediates.tax_results "A" "taxable_income" = none ∧
    (run_CAL_SUP_008 testRules testStateSup "A" 0).1.success = true ∧
    (run_CAL_SUP_008 testRules testStateSup "A" 0).1.value = some 0 := by
  refine ⟨by rfl, by rfl, ?_⟩
  norm_num +decide [run_CAL_SUP_008, testStateSup, testRules, getKey, getKeyD, getNested,
    emptyIntermediates]

/-- C4 (amended): `run_CAL_SUP_008` always succeeds; a missing
`taxable_income` is treated as 0, so the additional tax is computed with
an adjusted taxable income of 0; when `taxable_income` is present, the
additional tax is the recorded total concessional contributions times the
Division 293 rate if the adjusted taxable income exceeds the threshold,
and exactly zero otherwise. -/
theorem C4_div293_defaults_to_zero_income (rules : Rules) (st : CalculationState ε π)
    (e : String) (y : ℤ) :
    ((run_CAL_SUP_008 rules st e y).1.success = true) ∧
    (getNested st.intermediates.tax_results e "taxable_income" = none →
      (run_CAL_SUP_008 rules st e y).1.value =
        some (if (0 : ℚ) > rules.division_293_threshold then
          getKeyD st.intermediates.super_results "total_concessional" 0 * rules.division_293_rate
        else 0)) ∧
    (∀ ti, getNested st.intermediates.tax_results e "taxable_income" = some ti →
      (run_CAL_SUP_008 rules st e y).1.value =
        some (if ti > rules.division_293_threshold then
          getKeyD st.intermediates.super_results "total_concessional" 0 * rules.division_293_rate
        else 0)) := by
  refine ⟨by rfl, ?_, ?_⟩
  · intro h
    unfold run_CAL_SUP_008
    simp only [getKeyD_bucket, h, Option.getD_none]
  · intro ti h
    unfold run_CAL_SUP_008
    simp only [getKeyD_bucket, h, Option.getD_some]

/-- Witness for C4's amended theorem, applied at the concrete state both
with the prerequisite absent and with it present. -/
theorem C4_div293_defaults_to_zero_income_witness :
    (run_CAL_SUP_008 testRules testStateSup "A" 0).1.value = some 0 ∧
    (run_CAL_SUP_008 testRules
      { testStateSup with intermediates :=
        { testStateSup.intermediates with
            tax_results := [("A", [("taxable_income", 300000)])] } } "A" 0).1.value
      = some 150 := by
  constructor
  · have h := (C4_div293_defaults_to_zero_income testRules testStateSup "A" 0).2.1 (by rfl)
    rw [h]
    norm_num [testRules]
  · have h := (C4_div293_defaults_to_zero_income testRules
      { testStateSup with intermediates :=
        { testStateSup.intermediates with
            tax_results := [("A", [("taxable_income", 300000)])] } } "A" 0).2.2 300000 (by rfl)
    rw [h]
    norm_num +decide [testRules, testStateSup, getKeyD, getKey]

/-! ## C3 — per-entity buckets vs flat super results -/

theorem pit001_getNested_other (rules : Rules) (st : CalculationState ε π) (e : String)
    (y : ℤ) (e' k' : String) (he : e ≠ e') :
    getNested ((run_CAL_PIT_001 rules st e y).2).intermediates.tax_results e' k'
      = getNested st.intermediates.tax_results e' k' := by
  unfold run_CAL_PIT_001
  cases h : getKey st.cashflow_context.flows e
  · rfl
  · simp only
    exact getNested_setNested_ne_ent _ e e' _ k' _ he

theorem sup002_preserves_flows (rules : Rules) (st : CalculationState ε π) (e : String)
    (y : ℤ) :
    ((run_CAL_SUP_002 rules st e y).2).cashflow_context = st.cashflow_context := by
  unfold run_CAL_SUP_002
  cases h : getKey st.cashflow_context.flows e <;> rfl

theorem sup002_super_of_flow (rules : Rules) (st : CalculationState ε π) (e : String)
    (y : ℤ) (cf : EntityCashflow) (h : getKey st.cashflow_context.flows e = some cf) :
    ((run_CAL_SUP_002 rules st e y).2).intermediates.super_results
      = [("total_concessional",
           cf.super_employer_sg + cf.super_salary_sacrifice + cf.super_personal_deductible)] := by
  unfold run_CAL_SUP_002
  rw [h]
  rfl

/-- Counterexample to C3: `run_CAL_SUP_002` does not write into a
per-entity bucket — after running it for `A` (total 100) and then for
`B` (total 200), the single flat `super_results` slot holds only `B`'s
value; `A`'s stored result has been overwritten. -/
theorem C3_counterexample :
    ((run_CAL_SUP_002 testRules testStateAB "A" 0).2).intermediates.super_results
      = [("total_concessional", 100)] ∧
    ((run_CAL_SUP_002 testRules
        (run_CAL_SUP_002 testRules testStateAB "A" 0).2 "B" 0).2).intermediates.super_results
      = [("total_concessional", 200)] := by
  constructor
  · norm_num +decide [run_CAL_SUP_002, testStateAB, getKey, setKey]
  · norm_num +decide [run_CAL_SUP_002, testStateAB, getKey, setKey]

/-- C3 (amended): the tax-domain handlers write per-entity buckets of
`tax_results` keyed by the entity id — running CAL-PIT-001 for `A` and
then for `B ≠ A` leaves `A`'s stored `payg_tax` unchanged — but the
superannuation handlers write flat keys of `super_results` not keyed by
entity, so running CAL-SUP-002 for `A` and then for `B` leaves
`super_results` holding exactly `B`'s total. -/
theorem C3_tax_buckets_super_flat (rules : Rules) (st : CalculationState ε π)
    (A B : String) (y : ℤ) (hAB : A ≠ B) :
    (getNested ((run_CAL_PIT_001 rules
        (run_CAL_PIT_001 rules st A y).2 B y).2).intermediates.tax_results A "payg_tax"
      = getNested ((run_CAL_PIT_001 rules st A y).2).intermediates.tax_results A "payg_tax") ∧
    (∀ cfB, getKey st.cashflow_context.flows B = some cfB →
      ((run_CAL_SUP_002 rules
          (run_CAL_SUP_002 rules st A y).2 B y).2).intermediates.super_results
        = [("total_concessional",
             cfB.super_employer_sg + cfB.super_salary_sacrifice + cfB.super_personal_deductible)]) := by
  constructor
  · exact pit001_getNested_other rules _ B y A "payg_tax" (Ne.symm hAB)
  · intro cfB hB
    refine sup002_super_of_flow rules _ B y cfB ?_
    rw [sup002_preserves_flows]
    exact hB

/-- Witness for C3's amended theorem at the concrete two-entity state. -/
theorem C3_tax_buckets_super_flat_witness :
    (getNested ((run_CAL_PIT_001 testRules
        (run_CAL_PIT_001 testRules testStateA "A" 0).2 "B" 0).2).intermediates.tax_results "A" "payg_tax"
      = getNested ((run_CAL_PIT_001 testRules testStateA "A" 0).2).intermediates.tax_results "A" "payg_tax") ∧
    ((run_CAL_SUP_002 testRules
        (run_CAL_SUP_002 testRules testStateAB "A" 0).2 "B" 0).2).intermediates.super_results
      = [("total_concessional", 200)] := by
  constructor
  · exact (C3_tax_buckets_super_flat testRules testStateA "A" "B" 0 (by decide)).1
  · have h := (C3_tax_buckets_super_flat testRules testStateAB "A" "B" 0 (by decide)).2
      { entity_id := "B", super_employer_sg := 200 } (by rfl)
    rw [h]
    norm_num

/-! ## C1 — projection timeline shape -/

/-- C1 at a concrete input: the timeline produced for
`projection_years = 2` from a base state with `financial_year = 2024`
has the claimed length 3 and year indexes 0, 1, 2, but its
`financial_year` values are 2024, 2026, 2028 — consecutive snapshots
differ by 2, not 1, because `_advance_to_next_year` increments
`financial_year` and `_calculate_year_snapshot` adds `year_index` to the
already-advanced year again. -/
theorem C1_financial_year_steps_by_two :
    ((run_projection testRules testStateEmpty 2 100).1.timeline.map (fun s => s.year_index)
      = [0, 1, 2]) ∧
    ((run_projection testRules testStateEmpty 2 100).1.timeline.map (fun s => s.financial_year)
      = [2024, 2026, 2028]) ∧
    (run_projection testRules testStateEmpty 2 100).1.timeline.length = 3 := by
  refine ⟨by rfl, by rfl, by rfl⟩

/-! ## C10 — error atomicity of every registered handler -/

/-- A failed call leaves the state untouched. -/
def FailLeavesStateUnchanged (f : Handler ε π) : Prop :=
  ∀ (rules : Rules) (st : CalculationState ε π) (e : String) (y : ℤ),
    (f rules st e y).1.success = false → (f rules st e y).2 = st

theorem pit001_atomic : FailLeavesStateUnchanged (run_CAL_PIT_001 (ε := ε) (π := π)) := by
  intro rules st e y
  unfold run_CAL_PIT_001
  cases h : getKey st.cashflow_context.flows e
  · intro _; rfl
  · intro hfail; simp at hfail

theorem pit002_atomic : FailLeavesStateUnchanged (run_CAL_PIT_002 (ε := ε) (π := π)) := by
  intro rules st e y
  unfold run_CAL_PIT_002
  cases h : getNested st.intermediates.tax_results e "taxable_income"
  · intro _; rfl
  · intro hfail; simp at hfail

theorem pit004_atomic : FailLeavesStateUnchanged (run_CAL_PIT_004 (ε := ε) (π := π)) := by
  intro rules st e y
  unfold run_CAL_PIT_004
  cases h : getNested st.intermediates.tax_results e "taxable_income"
  · intro _; rfl
  · simp only
    split
    · intro _; rfl
    · intro hfail; simp at hfail

theorem pit005_atomic : FailLeavesStateUnchanged (run_CAL_PIT_005 (ε := ε) (π := π)) := by
  intro rules st e y
  unfold run_CAL_PIT_005
  cases h : getKey st.intermediates.tax_results e
  · intro _; rfl
  · intro hfail; simp at hfail

theorem sup002_atomic : FailLeavesStateUnchanged (run_CAL_SUP_002 (ε := ε) (π := π)) := by
  intro rules st e y
  unfold run_CAL_SUP_002
  cases h : getKey st.cashflow_context.flows e
  · intro _; rfl
  · intro hfail; simp at hfail

theorem sup003_atomic : FailLeavesStateUnchanged (run_CAL_SUP_003 (ε := ε) (π := π)) := by
  intro rules st e y hfail
  simp [run_CAL_SUP_003] at hfail

theorem sup007_atomic : FailLeavesStateUnchanged (run_CAL_SUP_007 (ε := ε) (π := π)) := by
  intro rules st e y hfail
  simp [run_CAL_SUP_007] at hfail

theorem sup008_atomic : FailLeavesStateUnchanged (run_CAL_SUP_008 (ε := ε) (π := π)) := by
  intro rules st e y hfail
  simp [run_CAL_SUP_008] at hfail

theorem sup009_atomic : FailLeavesStateUnchanged (run_CAL_SUP_009 (ε := ε) (π := π)) := by
  intro rules st e y hfail
  simp [run_CAL_SUP_009] at hfail

theorem cgt001_atomic : FailLeavesStateUnchanged (run_CAL_CGT_001 (ε := ε) (π := π)) := by
  intro rules st e y _
  rfl

theorem cgt002_atomic : FailLeavesStateUnchanged (run_CAL_CGT_002 (ε := ε) (π := π)) := by
  intro rules st e y _
  rfl

theorem pfl104_atomic : FailLeavesStateUnchanged (run_CAL_PFL_104 (ε := ε) (π := π)) := by
  intro rules st e y hfail
  simp [run_CAL_PFL_104] at hfail

/-- C10: whenever any handler registered in `CALCULATION_REGISTRY`
returns `success = false` — from an explicit validation branch or from a
caught exception — the `CalculationState` passed in is returned exactly
as it was: no intermediate result is written and no trace entry is
appended. -/
theorem C10_error_atomicity (cal_id : String) (h : Handler ε π)
    (hmem : (cal_id, h) ∈ CALCULATION_REGISTRY ε π) :
    FailLeavesStateUnchanged h := by
  simp only [CALCULATION_REGISTRY, List.mem_cons, List.not_mem_nil, or_false,
    Prod.mk.injEq] at hmem
  rcases hmem with ⟨_, rfl⟩ | ⟨_, rfl⟩ | ⟨_, rfl⟩ | ⟨_, rfl⟩ | ⟨_, rfl⟩ | ⟨_, rfl⟩ |
    ⟨_, rfl⟩ | ⟨_, rfl⟩ | ⟨_, rfl⟩ | ⟨_, rfl⟩ | ⟨_, rfl⟩ | ⟨_, rfl⟩
  · exact pit001_atomic
  · exact pit002_atomic
  · exact pit004_atomic
  · exact pit005_atomic
  · exact cgt001_atomic
  · exact cgt002_atomic
  · exact sup002_atomic
  · exact sup003_atomic
  · exact sup007_atomic
  · exact sup008_atomic
  · exact sup009_atomic
  · exact pfl104_atomic

/-- Witness for C10: applied to the always-failing CAL-CGT-001 at a
concrete state. -/
theorem C10_error_atomicity_witness :
    (run_CAL_CGT_001 testRules testStateA "A" 0).2 = testStateA :=
  C10_error_atomicity "CAL-CGT-001" run_CAL_CGT_001 (by simp [CALCULATION_REGISTRY])
    testRules testStateA "A" 0 (by rfl)

/-! ## C9 — determinism / idempotent overwrite -/

/-- Running a handler a second time on the state the first run produced
returns the same value and leaves every stored result dict exactly as
after the single run (overwrite, not accumulate). -/
def SecondRunStable (f : Handler ε π) : Prop :=
  ∀ (rules : Rules) (st : CalculationState ε π) (e : String) (y : ℤ),
    (f rules (f rules st e y).2 e y).1.value = (f rules st e y).1.value ∧
    (f rules (f rules st e y).2 e y).2.intermediates.tax_results
      = (f rules st e y).2.intermediates.tax_results ∧
    (f rules (f rules st e y).2 e y).2.intermediates.super_results
      = (f rules st e y).2.intermediates.super_results ∧
    (f rules (f rules st e y).2 e y).2.intermediates.property_results
      = (f rules st e y).2.intermediates.property_results

theorem pit001_stable : SecondRunStable (run_CAL_PIT_001 (ε := ε) (π := π)) := by
  intro rules st e y
  unfold run_CAL_PIT_001
  cases h : getKey st.cashflow_context.flows e
  · simp [h]
  · simp [h, setNested_idem]

theorem sup002_stable : SecondRunStable (run_CAL_SUP_002 (ε := ε) (π := π)) := by
  intro rules st e y
  unfold run_CAL_SUP_002
  cases h : getKey st.cashflow_context.flows e
  · simp [h]
  · simp [h]

theorem cgt001_stable : SecondRunStable (run_CAL_CGT_001 (ε := ε) (π := π)) := by
  intro rules st e y
  exact ⟨rfl, rfl, rfl, rfl⟩

theorem cgt002_stable : SecondRunStable (run_CAL_CGT_002 (ε := ε) (π := π)) := by
  intro rules st e y
  exact ⟨rfl, rfl, rfl, rfl⟩

theorem pfl104_stable : SecondRunStable (run_CAL_PFL_104 (ε := ε) (π := π)) := by
  intro rules st e y
  unfold run_CAL_PFL_104
  simp

theorem sup007_stable : SecondRunStable (run_CAL_SUP_007 (ε := ε) (π := π)) := by
  intro rules st e y
  unfold run_CAL_SUP_007
  simp only [getKeyD]
  rw [getKey_setKey_ne _ _ (by decide : ("contributions_tax" : String) ≠ "total_concessional")]
  simp [setKey_setKey_same]

theorem sup008_stable : SecondRunStable (run_CAL_SUP_008 (ε := ε) (π := π)) := by
  intro rules st e y
  unfold run_CAL_SUP_008
  simp only [getKeyD_bucket, getKeyD]
  rw [getKey_setKey_ne _ _ (by decide : ("division_293_tax" : String) ≠ "total_concessional")]
  simp [setKey_setKey_same]

theorem sup009_stable : SecondRunStable (run_CAL_SUP_009 (ε := ε) (π := π)) := by
  intro rules st e y
  unfold run_CAL_SUP_009
  simp only [getKeyD]
  rw [getKey_setKey_ne _ _ (by decide : ("net_contribution" : String) ≠ "total_concessional"),
    getKey_setKey_ne _ _ (by decide : ("net_contribution" : String) ≠ "contributions_tax"),
    getKey_setKey_ne _ _ (by decide : ("net_contribution" : String) ≠ "division_293_tax")]
  simp [setKey_setKey_same]

theorem getKey_tc_after_caps (S : List (String × ℚ)) (u r x : ℚ) :
    getKey (setKey (setKey (setKey S "concessional_cap_utilised" u)
      "concessional_cap_remaining" r) "concessional_cap_excess" x) "total_concessional"
      = getKey S "total_concessional" := by
  rw [getKey_setKey_ne _ _ (by decide), getKey_setKey_ne _ _ (by decide),
    getKey_setKey_ne _ _ (by decide)]

theorem setKey_caps_idem (S : List (String × ℚ)) (u r x : ℚ) :
    setKey (setKey (setKey
        (setKey (setKey (setKey S "concessional_cap_utilised" u)
          "concessional_cap_remaining" r) "concessional_cap_excess" x)
        "concessional_cap_utilised" u)
      "concessional_cap_remaining" r) "concessional_cap_excess" x
    = setKey (setKey (setKey S "concessional_cap_utilised" u)
        "concessional_cap_remaining" r) "concessional_cap_excess" x := by
  have h1 : getKey (setKey (setKey (setKey S "concessional_cap_utilised" u)
      "concessional_cap_remaining" r) "concessional_cap_excess" x) "concessional_cap_utilised"
      = some u := by
    rw [getKey_setKey_ne _ _ (by decide), getKey_setKey_ne _ _ (by decide), getKey_setKey_self]
  rw [setKey_eq_self _ _ _ h1]
  have h2 : getKey (setKey (setKey (setKey S "concessional_cap_utilised" u)
      "concessional_cap_remaining" r) "concessional_cap_excess" x) "concessional_cap_remaining"
      = some r := by
    rw [getKey_setKey_ne _ _ (by decide), getKey_setKey_self]
  rw [setKey_eq_self _ _ _ h2]
  exact setKey_eq_self _ _ _ (getKey_setKey_self _ _ _)

theorem sup003_stable : SecondRunStable (run_CAL_SUP_003 (ε := ε) (π := π)) := by
  intro rules st e y
  unfold run_CAL_SUP_003
  simp only [getKeyD, getKey_tc_after_caps, setKey_caps_idem]
  simp

theorem getNested_med_taxable (d : List (String × List (String × ℚ))) (e e' : String) (v : ℚ) :
    getNested (setNested d e "medicare_levy" v) e' "taxable_income"
      = getNested d e' "taxable_income" :=
  getNested_setNested_ne_key _ _ _ _ _ _ (by decide)

theorem getNested_off_taxable (d : List (String × List (String × ℚ))) (e e' : String) (v : ℚ) :
    getNested (setNested d e "tax_offsets" v) e' "taxable_income"
      = getNested d e' "taxable_income" :=
  getNested_setNested_ne_key _ _ _ _ _ _ (by decide)

theorem getNested_net_payg (d : List (String × List (String × ℚ))) (e e' : String) (v : ℚ) :
    getNested (setNested d e "net_tax_payable" v) e' "payg_tax" = getNested d e' "payg_tax" :=
  getNested_setNested_ne_key _ _ _ _ _ _ (by decide)

theorem getNested_net_med (d : List (String × List (String × ℚ))) (e e' : String) (v : ℚ) :
    getNested (setNested d e "net_tax_payable" v) e' "medicare_levy"
      = getNested d e' "medicare_levy" :=
  getNested_setNested_ne_key _ _ _ _ _ _ (by decide)

theorem getNested_net_off (d : List (String × List (String × ℚ))) (e e' : String) (v : ℚ) :
    getNested (setNested d e "net_tax_payable" v) e' "tax_offsets"
      = getNested d e' "tax_offsets" :=
  getNested_setNested_ne_key _ _ _ _ _ _ (by decide)

theorem getKey_setNested_self (d : List (String × List (String × ℚ))) (e k : String) (v : ℚ) :
    getKey (setNested d e k v) e = some (setKey (getKeyD d e []) k v) := by
  unfold setNested
  exact getKey_setKey_self _ _ _

theorem pit002_stable : SecondRunStable (run_CAL_PIT_002 (ε := ε) (π := π)) := by
  intro rules st e y
  unfold run_CAL_PIT_002
  cases h : getNested st.intermediates.tax_results e "taxable_income"
  · simp [h]
  · simp [h, getNested_med_taxable, setNested_idem]

theorem pit004_stable : SecondRunStable (run_CAL_PIT_004 (ε := ε) (π := π)) := by
  intro rules st e y
  unfold run_CAL_PIT_004
  cases h : getNested st.intermediates.tax_results e "taxable_income"
  · simp [h]
  · rename_i ti
    by_cases hz : rules.lito.phase_out_rate = 0 ∧ rules.lito.income_limit < ti
    · simp [h, hz]
    · simp [h, hz, getNested_off_taxable, setNested_idem]

theorem pit005_stable : SecondRunStable (run_CAL_PIT_005 (ε := ε) (π := π)) := by
  intro rules st e y
  unfold run_CAL_PIT_005
  cases h : getKey st.intermediates.tax_results e
  · simp [h]
  · simp [h, getKey_setNested_self, getKeyD_bucket, getNested_net_payg, getNested_net_med,
      getNested_net_off, setNested_idem]

/-- C9: every handler registered in `CALCULATION_REGISTRY`, run twice in
succession on the same state (same entity, same year), returns the same
`CalculationResult.value` both times, and the second run leaves the
stored tax, super and property result dicts exactly as the single run
did — overwriting, not accumulating. -/
theorem C9_idempotent_overwrite (cal_id : String) (h : Handler ε π)
    (hmem : (cal_id, h) ∈ CALCULATION_REGISTRY ε π) :
    SecondRunStable h := by
  simp only [CALCULATION_REGISTRY, List.mem_cons, List.not_mem_nil, or_false,
    Prod.mk.injEq] at hmem
  rcases hmem with ⟨_, rfl⟩ | ⟨_, rfl⟩ | ⟨_, rfl⟩ | ⟨_, rfl⟩ | ⟨_, rfl⟩ | ⟨_, rfl⟩ |
    ⟨_, rfl⟩ | ⟨_, rfl⟩ | ⟨_, rfl⟩ | ⟨_, rfl⟩ | ⟨_, rfl⟩ | ⟨_, rfl⟩
  · exact pit001_stable
  · exact pit002_stable
  · exact pit004_stable
  · exact pit005_stable
  · exact cgt001_stable
  · exact cgt002_stable
  · exact sup002_stable
  · exact sup003_stable
  · exact sup007_stable
  · exact sup008_stable
  · exact sup009_stable
  · exact pfl104_stable

/-- Witness for C9: CAL-PIT-001 run twice at a concrete state returns the
same value, and the stored `payg_tax` equals the single-run value. -/
theorem C9_idempotent_overwrite_witness :
    (run_CAL_PIT_001 testRules
        (run_CAL_PIT_001 testRules testStateA "A" 0).2 "A" 0).1.value
      = (run_CAL_PIT_001 testRules testStateA "A" 0).1.value ∧
    (run_CAL_PIT_001 testRules
        (run_CAL_PIT_001 testRules testStateA "A" 0).2 "A" 0).2.intermediates.tax_results
      = (run_CAL_PIT_001 testRules testStateA "A" 0).2.intermediates.tax_results :=
  let h := C9_idempotent_overwrite "CAL-PIT-001" run_CAL_PIT_001
    (by simp [CALCULATION_REGISTRY]) testRules testStateA "A" 0
  ⟨h.1, h.2.1⟩

/-! ## C7 — snapshot isolation (region model of object identity) -/

theorem pit001_pos (rules : Rules) (st : CalculationState ε π) (e : String) (y : ℤ) :
    (run_CAL_PIT_001 rules st e y).2.position_context = st.position_context := by
  unfold run_CAL_PIT_001
  cases h : getKey st.cashflow_context.flows e <;> simp [h]

theorem pit001_region (rules : Rules) (st : CalculationState ε π) (e : String) (y : ℤ) :
    (run_CAL_PIT_001 rules st e y).2.intermediates.region = st.intermediates.region := by
  unfold run_CAL_PIT_001
  cases h : getKey st.cashflow_context.flows e <;> simp [h]

theorem pit002_pos (rules : Rules) (st : CalculationState ε π) (e : String) (y : ℤ) :
    (run_CAL_PIT_002 rules st e y).2.position_context = st.position_context := by
  unfold run_CAL_PIT_002
  cases h : getNested st.intermediates.tax_results e "taxable_income" <;> simp [h]

theorem pit002_region (rules : Rules) (st : CalculationState ε π) (e : String) (y : ℤ) :
    (run_CAL_PIT_002 rules st e y).2.intermediates.region = st.intermediates.region := by
  unfold run_CAL_PIT_002
  cases h : getNested st.intermediates.tax_results e "taxable_income" <;> simp [h]

theorem pit004_pos (rules : Rules) (st : CalculationState ε π) (e : String) (y : ℤ) :
    (run_CAL_PIT_004 rules st e y).2.position_context = st.position_context := by
  unfold run_CAL_PIT_004
  cases h : getNested st.intermediates.tax_results e "taxable_income"
  · simp [h]
  · simp only [h]
    split <;> simp

theorem pit004_region (rules : Rules) (st : CalculationState ε π) (e : String) (y : ℤ) :
    (run_CAL_PIT_004 rules st e y).2.intermediates.region = st.intermediates.region := by
  unfold run_CAL_PIT_004
  cases h : getNested st.intermediates.tax_results e "taxable_income"
  · simp [h]
  · simp only [h]
    split <;> simp

theorem pit005_pos (rules : Rules) (st : CalculationState ε π) (e : String) (y : ℤ) :
    (run_CAL_PIT_005 rules st e y).2.position_context = st.position_context := by
  unfold run_CAL_PIT_005
  cases h : getKey st.intermediates.tax_results e <;> simp [h]

theorem pit005_region (rules : Rules) (st : CalculationState ε π) (e : String) (y : ℤ) :
    (run_CAL_PIT_005 rules st e y).2.intermediates.region = st.intermediates.region := by
  unfold run_CAL_PIT_005
  cases h : getKey st.intermediates.tax_results e <;> simp [h]

theorem sup002_pos (rules : Rules) (st : CalculationState ε π) (e : String) (y : ℤ) :
    (run_CAL_SUP_002 rules st e y).2.position_context = st.position_context := by
  unfold run_CAL_SUP_002
  cases h : getKey st.cashflow_context.flows e <;> simp [h]

theorem sup002_region (rules : Rules) (st : CalculationState ε π) (e : String) (y : ℤ) :
    (run_CAL_SUP_002 rules st e y).2.intermediates.region = st.intermediates.region := by
  unfold run_CAL_SUP_002
  cases h : getKey st.cashflow_context.flows e <;> simp [h]

theorem sup003_pos (rules : Rules) (st : CalculationState ε π) (e : String) (y : ℤ) :
    (run_CAL_SUP_003 rules st e y).2.position_context = st.position_context := rfl

theorem sup003_region (rules : Rules) (st : CalculationState ε π) (e : String) (y : ℤ) :
    (run_CAL_SUP_003 rules st e y).2.intermediates.region = st.intermediates.region := rfl

theorem sup007_pos (rules : Rules) (st : CalculationState ε π) (e : String) (y : ℤ) :
    (run_CAL_SUP_007 rules st e y).2.position_context = st.position_context := rfl

theorem sup007_region (rules : Rules) (st : CalculationState ε π) (e : String) (y : ℤ) :
    (run_CAL_SUP_007 rules st e y).2.intermediates.region = st.intermediates.region := rfl

theorem sup008_pos (rules : Rules) (st : CalculationState ε π) (e : String) (y : ℤ) :
    (run_CAL_SUP_008 rules st e y).2.position_context = st.position_context := rfl

theorem sup008_region (rules : Rules) (st : CalculationState ε π) (e : String) (y : ℤ) :
    (run_CAL_SUP_008 rules st e y).2.intermediates.region = st.intermediates.region := rfl

theorem sup009_pos (rules : Rules) (st : CalculationState ε π) (e : String) (y : ℤ) :
    (run_CAL_SUP_009 rules st e y).2.position_context = st.position_context := rfl

theorem sup009_region (rules : Rules) (st : CalculationState ε π) (e : String) (y : ℤ) :
    (run_CAL_SUP_009 rules st e y).2.intermediates.region = st.intermediates.region := rfl

theorem run_calc_pit001 (rules : Rules) (st : CalculationState ε π) (e : String) (y : ℤ) :
    run_calculation rules "CAL-PIT-001" st e y = run_CAL_PIT_001 rules st e y := rfl

theorem run_calc_pit002 (rules : Rules) (st : CalculationState ε π) (e : String) (y : ℤ) :
    run_calculation rules "CAL-PIT-002" st e y = run_CAL_PIT_002 rules st e y := rfl

theorem run_calc_pit004 (rules : Rules) (st : CalculationState ε π) (e : String) (y : ℤ) :
    run_calculation rules "CAL-PIT-004" st e y = run_CAL_PIT_004 rules st e y := rfl

theorem run_calc_pit005 (rules : Rules) (st : CalculationState ε π) (e : String) (y : ℤ) :
    run_calculation rules "CAL-PIT-005" st e y = run_CAL_PIT_005 rules st e y := rfl

theorem run_calc_sup002 (rules : Rules) (st : CalculationState ε π) (e : String) (y : ℤ) :
    run_calculation rules "CAL-SUP-002" st e y = run_CAL_SUP_002 rules st e y := rfl

theorem run_calc_sup003 (rules : Rules) (st : CalculationState ε π) (e : String) (y : ℤ) :
    run_calculation rules "CAL-SUP-003" st e y = run_CAL_SUP_003 rules st e y := rfl

theorem run_calc_sup007 (rules : Rules) (st : CalculationState ε π) (e : String) (y : ℤ) :
    run_calculation rules "CAL-SUP-007" st e y = run_CAL_SUP_007 rules st e y := rfl

theorem run_calc_sup008 (rules : Rules) (st : CalculationState ε π) (e : String) (y : ℤ) :
    run_calculation rules "CAL-SUP-008" st e y = run_CAL_SUP_008 rules st e y := rfl

theorem run_calc_sup009 (rules : Rules) (st : CalculationState ε π) (e : String) (y : ℤ) :
    run_calculation rules "CAL-SUP-009" st e y = run_CAL_SUP_009 rules st e y := rfl

theorem tax_chain_pos (rules : Rules) (st : CalculationState ε π) (e : String) (y : ℤ) :
    (calculate_entity_tax_metrics rules st e y).position_context = st.position_context := by
  simp only [calculate_entity_tax_metrics, run_calc_pit001, run_calc_pit002, run_calc_pit004,
    run_calc_pit005, pit005_pos, pit004_pos, pit002_pos, pit001_pos]

theorem tax_chain_region (rules : Rules) (st : CalculationState ε π) (e : String) (y : ℤ) :
    (calculate_entity_tax_metrics rules st e y).intermediates.region
      = st.intermediates.region := by
  simp only [calculate_entity_tax_metrics, run_calc_pit001, run_calc_pit002, run_calc_pit004,
    run_calc_pit005, pit005_region, pit004_region, pit002_region, pit001_region]

theorem super_chain_pos (rules : Rules) (st : CalculationState ε π) (e : String) (y : ℤ) :
    (calculate_entity_super_metrics rules st e y).position_context = st.position_context := by
  simp only [calculate_entity_super_metrics, run_calc_sup002, run_calc_sup003, run_calc_sup007,
    run_calc_sup008, run_calc_sup009, sup009_pos, sup008_pos, sup007_pos, sup003_pos, sup002_pos]

theorem super_chain_region (rules : Rules) (st : CalculationState ε π) (e : String) (y : ℤ) :
    (calculate_entity_super_metrics rules st e y).intermediates.region
      = st.intermediates.region := by
  simp only [calculate_entity_super_metrics, run_calc_sup002, run_calc_sup003, run_calc_sup007,
    run_calc_sup008, run_calc_sup009, sup009_region, sup008_region, sup007_region, sup003_region,
    sup002_region]

theorem foldl_preserves {α : Type} (prj : CalculationState ε π → α)
    {g : CalculationState ε π → String → CalculationState ε π}
    (hg : ∀ s e, prj (g s e) = prj s) :
    ∀ (keys : List String) (st : CalculationState ε π), prj (keys.foldl g st) = prj st := by
  intro keys
  induction keys with
  | nil => intro st; rfl
  | cons a tl ih =>
    intro st
    rw [List.foldl_cons, ih, hg]

theorem calc_year_pos (rules : Rules) (st : CalculationState ε π) (k ctr : ℕ) :
    (calculate_year_snapshot rules st k ctr).1.position_snapshot = st.position_context := by
  unfold calculate_year_snapshot
  simp only
  rw [foldl_preserves (fun s => s.position_context) (fun s e => super_chain_pos rules s e k),
    foldl_preserves (fun s => s.position_context) (fun s e => tax_chain_pos rules s e k)]

theorem calc_year_inter_region (rules : Rules) (st : CalculationState ε π) (k ctr : ℕ) :
    (calculate_year_snapshot rules st k ctr).1.intermediaries.region = ctr := by
  unfold calculate_year_snapshot
  simp only
  rw [foldl_preserves (fun s => s.intermediates.region)
      (fun s e => super_chain_region rules s e k),
    foldl_preserves (fun s => s.intermediates.region) (fun s e => tax_chain_region rules s e k)]
  rfl

theorem calc_year_ctr (rules : Rules) (st : CalculationState ε π) (k ctr : ℕ) :
    (calculate_year_snapshot rules st k ctr).2.2 = ctr + 1 := rfl

theorem advance_pos_region (st : CalculationState ε π) (k ctr : ℕ) :
    (advance_to_next_year st k ctr).1.position_context.region = ctr := by
  simp only [advance_to_next_year, apply_inflation_to_cashflows,
    apply_wage_growth_to_cashflows, deepCopyState]
  split <;> split <;> rfl

theorem advance_inter_region (st : CalculationState ε π) (k ctr : ℕ) :
    (advance_to_next_year st k ctr).1.intermediates.region = ctr + 1 := by
  simp only [advance_to_next_year, apply_inflation_to_cashflows,
    apply_wage_growth_to_cashflows, deepCopyState]
  split <;> split <;> rfl

theorem advance_ctr (st : CalculationState ε π) (k ctr : ℕ) :
    (advance_to_next_year st k ctr).2 = ctr + 2 := rfl

theorem projGo_pos_map (rules : Rules) :
    ∀ (r : ℕ) (st : CalculationState ε π) (k ctr : ℕ),
      (projGo rules r st k ctr).1.map (fun s => s.position_snapshot.region)
        = st.position_context.region :: (List.range r).map (fun i => ctr + 3 * i + 1) := by
  intro r
  induction r with
  | zero =>
    intro st k ctr
    simp [projGo, calc_year_pos]
  | succ n ih =>
    intro st k ctr
    rw [projGo]
    simp only [List.map_cons, calc_year_pos]
    rw [ih, advance_pos_region, advance_ctr, calc_year_ctr, List.range_succ_eq_map]
    simp only [List.map_cons, List.map_map, List.cons.injEq]
    refine ⟨trivial, trivial, ?_⟩
    exact List.map_congr_left fun a _ => by simp only [Function.comp_apply]; omega

theorem projGo_inter_map (rules : Rules) :
    ∀ (r : ℕ) (st : CalculationState ε π) (k ctr : ℕ),
      (projGo rules r st k ctr).1.map (fun s => s.intermediaries.region)
        = (List.range (r + 1)).map (fun i => ctr + 3 * i) := by
  intro r
  induction r with
  | zero =>
    intro st k ctr
    simp [projGo, calc_year_inter_region, show List.range 1 = [0] from rfl]
  | succ n ih =>
    intro st k ctr
    rw [projGo]
    simp only [List.map_cons, calc_year_inter_region]
    rw [ih, advance_ctr, calc_year_ctr]
    conv_rhs => rw [List.range_succ_eq_map]
    simp only [List.map_cons, List.map_map, List.cons.injEq]
    refine ⟨by omega, ?_⟩
    exact List.map_congr_left fun a _ => by simp only [Function.comp_apply]; omega

theorem timeline_pos_map (rules : Rules) (base : CalculationState ε π) (years ctr : ℕ) :
    (run_projection rules base years ctr).1.timeline.map (fun s => s.position_snapshot.region)
      = ctr :: (List.range years).map (fun i => ctr + 2 + 3 * i + 1) := by
  unfold run_projection
  simp only
  rw [projGo_pos_map]
  rfl

theorem timeline_inter_map (rules : Rules) (base : CalculationState ε π) (years ctr : ℕ) :
    (run_projection rules base years ctr).1.timeline.map (fun s => s.intermediaries.region)
      = (List.range (years + 1)).map (fun i => ctr + 2 + 3 * i) := by
  unfold run_projection
  simp only
  rw [projGo_inter_map]
  rfl

theorem timeline_pos_nodup (rules : Rules) (base : CalculationState ε π) (years ctr : ℕ) :
    ((run_projection rules base years ctr).1.timeline.map
      (fun s => s.position_snapshot.region)).Nodup := by
  rw [timeline_pos_map]
  refine List.nodup_cons.mpr ⟨?_, ?_⟩
  · intro hmem
    simp only [List.mem_map, List.mem_range] at hmem
    obtain ⟨i, _, hi⟩ := hmem
    omega
  · exact List.Nodup.map (fun a b hab => by omega) (List.nodup_range years)

theorem timeline_inter_nodup (rules : Rules) (base : CalculationState ε π) (years ctr : ℕ) :
    ((run_projection rules base years ctr).1.timeline.map
      (fun s => s.intermediaries.region)).Nodup := by
  rw [timeline_inter_map]
  exact List.Nodup.map (fun a b hab => by omega) (List.nodup_range (years + 1))

/-- A write performed through an alias of the position context living in
region `r`: it changes every position container in that region and
nothing else. -/
def writeViaPositionAlias (r : ℕ) (f : π → π) (s : YearSnapshot π) : YearSnapshot π :=
  if s.position_snapshot.region = r then
    { s with position_snapshot := { s.position_snapshot with data := f s.position_snapshot.data } }
  else s

/-- A write performed through an alias of the intermediates container
living in region `r` (mutation does not change the container's identity,
so the region tag is kept). -/
def writeViaIntermediariesAlias (r : ℕ) (g : Intermediates → Intermediates)
    (s : YearSnapshot π) : YearSnapshot π :=
  if s.intermediaries.region = r then
    { s with intermediaries := { g s.intermediaries with region := s.intermediaries.region } }
  else s

/-- C7: no two distinct snapshots of a projection timeline share mutable
structure — their position contexts live in distinct regions and their
intermediaries live in distinct regions — so a write through one
snapshot's position (or intermediaries) alias leaves every other
snapshot unchanged. -/
theorem C7_snapshot_isolation (rules : Rules) (base : CalculationState ε π)
    (years ctr : ℕ) (s t : YearSnapshot π) (f : π → π) (g : Intermediates → Intermediates)
    (hs : s ∈ (run_projection rules base years ctr).1.timeline)
    (ht : t ∈ (run_projection rules base years ctr).1.timeline)
    (hne : s ≠ t) :
    s.position_snapshot.region ≠ t.position_snapshot.region ∧
    s.intermediaries.region ≠ t.intermediaries.region ∧
    writeViaPositionAlias s.position_snapshot.region f t = t ∧
    writeViaIntermediariesAlias s.intermediaries.region g t = t := by
  have hpos : s.position_snapshot.region ≠ t.position_snapshot.region := by
    intro he
    exact hne (List.inj_on_of_nodup_map (timeline_pos_nodup rules base years ctr) hs ht he)
  have hint : s.intermediaries.region ≠ t.intermediaries.region := by
    intro he
    exact hne (List.inj_on_of_nodup_map (timeline_inter_nodup rules base years ctr) hs ht he)
  refine ⟨hpos, hint, ?_, ?_⟩
  · unfold writeViaPositionAlias
    rw [if_neg (Ne.symm hpos)]
  · unfold writeViaIntermediariesAlias
    rw [if_neg (Ne.symm hint)]

/-- The year-0 snapshot of `run_projection testRules testStateEmpty 1 50`. -/
def snapY0 : YearSnapshot Unit :=
  { year_index := 0, financial_year := 2024,
    position_snapshot := { region := 50, data := () },
    intermediaries := emptyIntermediates 52 }

/-- The year-1 snapshot of the same projection. -/
def snapY1 : YearSnapshot Unit :=
  { year_index := 1, financial_year := 2026,
    position_snapshot := { region := 53, data := () },
    intermediaries := emptyIntermediates 55 }

/-- Witness for C7: applied to the two snapshots of a concrete one-year
projection. -/
theorem C7_snapshot_isolation_witness :
    snapY0.position_snapshot.region ≠ snapY1.position_snapshot.region ∧
    snapY0.intermediaries.region ≠ snapY1.intermediaries.region ∧
    writeViaPositionAlias snapY0.position_snapshot.region (fun u => u) snapY1 = snapY1 ∧
    writeViaIntermediariesAlias snapY0.intermediaries.region
      (fun _ => emptyIntermediates 999) snapY1 = snapY1 :=
  C7_snapshot_isolation testRules testStateEmpty 1 50 snapY0 snapY1 (fun u => u)
    (fun _ => emptyIntermediates 999) (by decide) (by decide) (by decide)

end CalcCore
